import Mathlib

/-!
Verification of the Sarang mood-to-playlist recommendation engine.

The definitions below are a shallow embedding of the JavaScript source
(`server/services/sentimentService.js`, `server/controllers/moodController.js`,
`server/controllers/playlistController.js`, `server/utils/runPython.js`) into
Lean.  JavaScript numbers are modelled as `ℚ`, absent object fields as
`Option`, JavaScript truthiness of numbers/strings by explicit helper
functions (`0` and `""` are falsy, every array/object is truthy), and the
out-of-process collaborators (HTTP mood service, spawned Python scripts, the
Supabase database) as explicit oracle parameters.
-/

namespace Sarang

/-! ## Result cache (node-cache with `stdTTL: 3600`, sentimentService.js line 5)

`node-cache` stores with each entry the expiry instant `now + stdTTL`
milliseconds and `get` returns the value only while `Date.now()` is strictly
below that instant, deleting the entry otherwise.  We model the cache as an
association list keyed by string, keeping the insertion time. -/

/-- `stdTTL: 3600` seconds, in milliseconds. -/
def stdTTL_ms : ℕ := 3600 * 1000

structure CacheEntry (α : Type) where
  value : α
  insertedAt : ℕ
deriving DecidableEq

def Cache (α : Type) : Type := List (String × CacheEntry α)

/-- `moodCache.set(key, v)` at time `now`: the new entry replaces any entry
with the same key. -/
def cacheSet {α : Type} (c : Cache α) (k : String) (v : α) (now : ℕ) : Cache α :=
  (k, ⟨v, now⟩) :: List.filter (fun p => p.1 != k) c

/-- The entry currently stored for `k`, ignoring expiry. -/
def entryOf {α : Type} (c : Cache α) (k : String) : Option (CacheEntry α) :=
  (List.find? (fun p => p.1 == k) c).map Prod.snd

/-- `moodCache.get(key)` at time `now`: a hit only while the TTL has not
elapsed (node-cache's validity check is `expiry > Date.now()`). -/
def cacheGet {α : Type} (c : Cache α) (k : String) (now : ℕ) : Option α :=
  match List.find? (fun p => p.1 == k) c with
  | some p => if now < p.2.insertedAt + stdTTL_ms then some p.2.value else none
  | none => none

lemma cacheGet_cacheSet_self {α : Type} (c : Cache α) (k : String) (v : α) (t t' : ℕ) :
    cacheGet (cacheSet c k v t) k t' =
      if t' < t + stdTTL_ms then some v else none := by
  unfold cacheGet cacheSet
  simp

lemma cacheGet_some_fresh {α : Type} (c : Cache α) (k : String) (now : ℕ) (v : α)
    (h : cacheGet c k now = some v) :
    ∃ e : CacheEntry α, entryOf c k = some e ∧ e.value = v ∧
      now < e.insertedAt + stdTTL_ms := by
  unfold cacheGet at h
  unfold entryOf
  cases hf : List.find? (fun p => p.1 == k) c with
  | none => rw [hf] at h; exact absurd h (by simp)
  | some p =>
      rw [hf] at h
      by_cases ht : now < p.2.insertedAt + stdTTL_ms
      · refine ⟨p.2, by simp [hf], ?_, ht⟩
        simp [ht] at h
        exact h
      · simp [ht] at h

/-! ## Cache-key normalization (sentimentService.js line 139)

`const cacheKey = ``mood:${text.toLowerCase().trim()}``;` -/

/-- `String.prototype.toLowerCase`, modelled per character. -/
def jsToLower (s : String) : String := ⟨s.data.map Char.toLower⟩

/-- The characters removed by `String.prototype.trim` (WhiteSpace and line
terminators; the common ASCII ones suffice for this embedding). -/
def isTrimChar (c : Char) : Bool :=
  c == ' ' || c == '\t' || c == '\n' || c == '\r' || c == '\x0b' || c == '\x0c'

/-- `String.prototype.trim`: strip trim characters from both ends. -/
def jsTrim (s : String) : String :=
  ⟨((s.data.dropWhile isTrimChar).reverse.dropWhile isTrimChar).reverse⟩

/-- `text.toLowerCase().trim()` — the normalized form of the mood text. -/
def normalizeMood (s : String) : String := jsTrim (jsToLower s)

/-- The cache key `"mood:" + normalized text`. -/
def cacheKey (s : String) : String := "mood:" ++ normalizeMood s

lemma cacheKey_inj {a b : String} (h : cacheKey a = cacheKey b) :
    normalizeMood a = normalizeMood b := by
  unfold cacheKey at h
  have hd : ("mood:" ++ normalizeMood a).data = ("mood:" ++ normalizeMood b).data :=
    congrArg String.data h
  simp only [String.data_append] at hd
  have := List.append_cancel_left hd
  cases hna : normalizeMood a with
  | mk la =>
      cases hnb : normalizeMood b with
      | mk lb =>
          rw [hna, hnb] at this
          simpa using congrArg String.mk this

/-! ## JavaScript truthiness helpers

`x || y` on a possibly-absent number/string: `undefined`, `0` and `""` are
falsy; every present non-zero number and non-empty string is truthy. -/

/-- `a || d` for a possibly-absent number (`0` is falsy). -/
def jsOrQ (x : Option ℚ) (d : ℚ) : ℚ :=
  match x with
  | some q => if q = 0 then d else q
  | none => d

/-- `a || d` for a possibly-absent string (`""` is falsy). -/
def jsOrStr (x : Option String) (d : String) : String :=
  match x with
  | some s => if s = "" then d else s
  | none => d

/-- `!x` for a possibly-absent number (`undefined` and `0` are falsy). -/
def jsFalsyQ (x : Option ℚ) : Bool :=
  match x with
  | some q => q == 0
  | none => true

/-! ## Sentiment service (sentimentService.js)

The Python mood service at port 5001 is an external collaborator; its
health-check outcome and `/analyze` response are oracle inputs.  A `none`
analysis outcome stands for a timeout / non-ok HTTP status / thrown error. -/

/-- The JSON body of a successful `/analyze` response (fields the Node code
reads; any of them may be absent in the dynamic payload). -/
structure ServiceResponse where
  sentiment_score : Option ℚ
  confidence : Option ℚ
  primary_emotion : Option String
  emotion_confidence : Option ℚ
  intensity_level : Option ℚ
deriving DecidableEq

/-- The object `analyzeUltraAdvanced` resolves with (sentimentService.js
lines 51-65), including the legacy-compatibility aliases `score` and `label`
and the flags `analyzeSentiment` adds before caching (lines 154-156). -/
structure SResult where
  sentiment_score : Option ℚ
  confidence : Option ℚ
  primary_emotion : Option String
  emotion_confidence : Option ℚ
  intensity_level : Option ℚ
  score : Option ℚ
  label : Option String
  ultra_advanced : Bool := false
  method : Option String := none
  accuracy_level : Option String := none
deriving DecidableEq

/-- `analyzeUltraAdvanced`'s translation of the service JSON (the legacy
aliases `score`/`label` duplicate `sentiment_score`/`primary_emotion`). -/
def toSResult (r : ServiceResponse) : SResult :=
  { sentiment_score := r.sentiment_score
    confidence := r.confidence
    primary_emotion := r.primary_emotion
    emotion_confidence := r.emotion_confidence
    intensity_level := r.intensity_level
    score := r.sentiment_score
    label := r.primary_emotion }

/-- The mutation `analyzeSentiment` applies to a fresh result before caching
and returning it (lines 154-156). -/
def withServiceFlags (r : SResult) : SResult :=
  { r with ultra_advanced := true
           method := some "ultra_advanced_ai"
           accuracy_level := some "95%+" }

/-- Oracle for one request's interaction with the external classifier:
`healthy` is `checkServiceHealth`'s verdict and `analyze` the outcome of the
`/analyze` call (`none` = timeout, HTTP error, or bad payload). -/
structure ClassifierEnv where
  healthy : Bool
  analyze : Option ServiceResponse
deriving DecidableEq

inductive AnalyzeOutcome
  | cached (r : SResult)
  | fresh (r : SResult)
  | failure (msg : String)
deriving DecidableEq

/-- `analyzeSentiment` (sentimentService.js lines 137-168): consult the cache
under the normalized key; on a miss, require the ultra-advanced service to be
healthy and its analysis to succeed, cache and return the flagged result;
otherwise throw (no fallback analysis, no default mood). -/
def analyzeSentiment (env : ClassifierEnv) (cache : Cache SResult) (text : String)
    (now : ℕ) : AnalyzeOutcome × Cache SResult :=
  match cacheGet cache (cacheKey text) now with
  | some r => (.cached r, cache)
  | none =>
    if env.healthy then
      match env.analyze with
      | some resp =>
          (.fresh (withServiceFlags (toSResult resp)),
            cacheSet cache (cacheKey text) (withServiceFlags (toSResult resp)) now)
      | none =>
          (.failure "High-accuracy sentiment analysis service unavailable", cache)
    else
      (.failure "High-accuracy sentiment analysis service not running on port 5001",
        cache)

/-! ## Recommendation pipeline (server/utils/runPython.js, i.e. `runPythonScript`)

`runPythonScript` first calls the ultra-advanced mood service; on success it
tries the Python recommendation script and otherwise converts the mood
analysis' audio targets; if the mood service call itself throws, it falls
back to the original Python script.  The three out-of-process calls are
oracle inputs. -/

structure Track where
  track_name : String
  artist_name : String
deriving DecidableEq

/-- `audio_targets` as delivered by the mood service (each field optional;
scalar targets are modelled — the `?.[0]` range-array indexing collapses a
range to its first element and is elided here). -/
structure AudioTargetsRaw where
  valence : Option ℚ
  energy : Option ℚ
  danceability : Option ℚ
  tempo : Option ℚ
  loudness : Option ℚ
  acousticness : Option ℚ
deriving DecidableEq

/-- The mood-analysis JSON from `analyzeMoodUltraAdvanced`. -/
structure MoodAnalysis where
  sentiment_score : ℚ
  primary_emotion : String
  confidence : ℚ
  intensity_level : ℚ
  audio_targets : Option AudioTargetsRaw
deriving DecidableEq

/-- The Spotify-format target object built by `getRecommendationsFromMood`
(runPython.js lines 116-134). -/
structure AudioTargets where
  target_valence : ℚ
  target_energy : ℚ
  target_danceability : ℚ
  target_tempo : ℚ
  target_loudness : ℚ
  target_acousticness : ℚ
  mood_context : String
  confidence : ℚ
  intensity : ℚ
  sentiment_score : ℚ
deriving DecidableEq

/-- `getRecommendationsFromMood`: read each target out of
`moodAnalysis.audio_targets` with a `||` default. -/
def targetsFromMood (ma : MoodAnalysis) : AudioTargets :=
  { target_valence := jsOrQ (ma.audio_targets.bind (·.valence)) (1/2)
    target_energy := jsOrQ (ma.audio_targets.bind (·.energy)) (1/2)
    target_danceability := jsOrQ (ma.audio_targets.bind (·.danceability)) (1/2)
    target_tempo := jsOrQ (ma.audio_targets.bind (·.tempo)) 120
    target_loudness := jsOrQ (ma.audio_targets.bind (·.loudness)) (-10)
    target_acousticness := jsOrQ (ma.audio_targets.bind (·.acousticness)) (1/2)
    mood_context := ma.primary_emotion
    confidence := ma.confidence
    intensity := ma.intensity_level
    sentiment_score := ma.sentiment_score }

/-- The dynamic value stored under a playlist's `recommendations` key: a
track list from the Python script, or the audio-target object from the
fallback path.  Either is truthy in JavaScript. -/
inductive RecPayload
  | tracks (l : List Track)
  | targets (t : AudioTargets)
deriving DecidableEq

/-- A parsed playlist object as the controller sees it (all fields may be
absent in the dynamic JSON). -/
structure Playlist where
  recommendations : Option RecPayload := none
  tracks : Option RecPayload := none
  sentiment_score : Option ℚ := none
  primary_emotion : Option String := none
  confidence : Option ℚ := none
  method : Option String := none
  accuracy : Option String := none
  mood_analysis : Option MoodAnalysis := none
  error : Option String := none
deriving DecidableEq

/-- Oracle for `runPythonScript`'s three external calls: the ultra-advanced
mood service (`none` = thrown error / timeout), the spawned Python
recommendation script (`none` = nonzero exit or bad JSON), and the original
fallback Python script. -/
structure RecEnv where
  moodService : Option MoodAnalysis
  pythonRecs : Option Playlist
  originalScript : Option Playlist
deriving DecidableEq

/-- `runPythonScript` (runPython.js lines 9-51): on mood-service success, try
the Python recommendations and otherwise fall back to audio targets derived
from the mood analysis; on mood-service failure, silently fall back to the
original Python script and fail only if that also fails. -/
def runPythonScript (env : RecEnv) : Except String Playlist :=
  match env.moodService with
  | some ma =>
    match env.pythonRecs with
    | some pyRes =>
        .ok { mood_analysis := some ma
              recommendations := pyRes.recommendations
              method := some "python_with_ultra_advanced_mood"
              accuracy := some "81%+"
              sentiment_score := some ma.sentiment_score
              primary_emotion := some ma.primary_emotion
              confidence := some ma.confidence }
    | none =>
        .ok { mood_analysis := some ma
              recommendations := some (.targets (targetsFromMood ma))
              method := some "audio_targets_from_ultra_advanced"
              accuracy := some "81%+"
              sentiment_score := some ma.sentiment_score
              primary_emotion := some ma.primary_emotion
              confidence := some ma.confidence }
  | none =>
    match env.originalScript with
    | some raw => .ok raw
    | none => .error "Python script failed"

/-- `generateRecommendations` (recommendationService.js): rethrow a failed
run; also throw when the parsed result carries a truthy `error` field. -/
def generateRecommendations (env : RecEnv) : Except String Playlist :=
  match runPythonScript env with
  | .error e => .error e
  | .ok result =>
      if jsOrStr result.error "" = "" then .ok result
      else .error ("Python script failed: " ++ jsOrStr result.error "")

/-! ## Playlist controller (playlistController.js `generatePlaylist`) -/

/-- An Express response: `res.json(body)` (status 200) or
`res.status(s).json({error})`. -/
inductive PlaylistResponse
  | json (body : Playlist)
  | jsonError (status : ℕ) (msg : String)
deriving DecidableEq

/-- The `songData` JSON stored with the playlist row (playlistController.js
lines 34-41). -/
structure SongData where
  sentiment_score : ℚ
  primary_emotion : String
  method : String
  confidence : ℚ
  recommendations : RecPayload
deriving DecidableEq

/-- `const sentimentScore = playlist.sentiment_score ||
playlist.mood_analysis?.sentiment_score || 0;` and the corresponding chains
inside `songData`. -/
def songDataOf (pl : Playlist) : SongData :=
  { sentiment_score :=
      jsOrQ pl.sentiment_score
        (jsOrQ (pl.mood_analysis.map (·.sentiment_score)) 0)
    primary_emotion :=
      jsOrStr pl.primary_emotion
        (jsOrStr (pl.mood_analysis.map (·.primary_emotion)) "neutral")
    method := jsOrStr pl.method "unknown"
    confidence :=
      jsOrQ pl.confidence
        (jsOrQ (pl.mood_analysis.map (·.confidence)) (1/2))
    recommendations :=
      (pl.recommendations.getD (pl.tracks.getD (.tracks []))) }

/-- `generatePlaylist` (playlistController.js lines 5-59).  `recOutcome` is
`generateRecommendations`' result (`.ok none` models a parsed `null`), and
`dbInsert` the Supabase insert outcome.  A missing/invalid playlist throws
into the catch (HTTP 500); a *present but empty* recommendations array is an
array, hence truthy, and passes the check; a database error is only logged
and the playlist is returned regardless. -/
def generatePlaylist (recOutcome : Except String (Option Playlist))
    (dbInsert : Except String ℕ) : PlaylistResponse :=
  match recOutcome with
  | .error e => .jsonError 500 e
  | .ok pOpt =>
    match pOpt with
    | none => .jsonError 500 "No recommendations generated from Python service"
    | some pl =>
        if pl.recommendations = none ∧ pl.tracks = none then
          .jsonError 500 "No recommendations generated from Python service"
        else
          -- `songDataOf pl` is inserted; `dbInsert` errors are only logged
          match dbInsert with
          | .error _ => .json pl
          | .ok _ => .json pl

/-! ## Mood controller (moodController.js) -/

/-- The `moods` row the controller inserts (only these fields are sent,
besides `userId`/`created_at`). -/
structure MoodRow where
  inputText : String
  sentimentScore : ℚ
deriving DecidableEq

inductive LogMoodResponse
  | json (row : MoodRow)
  | jsonError (status : ℕ) (msg : String)
deriving DecidableEq

/-- The observable outcome of one `logMood` call: the HTTP response, whether
`analyzeSentiment` was invoked, the score finally sent to the database, and
the `finalSentimentLabel` local (computed but not persisted). -/
structure LogMoodResult where
  response : LogMoodResponse
  classifierCalled : Bool
  storedScore : Option ℚ
  finalLabel : Option String
deriving DecidableEq

/-- The tail of `logMood`: insert the row and answer (a database error
answers HTTP 400, otherwise the inserted row is echoed back). -/
def logMoodInsert (score : ℚ) (label : String) (text : String) (called : Bool)
    (dbInsert : Except String Unit) : LogMoodResult :=
  match dbInsert with
  | .error e => ⟨.jsonError 400 e, called, some score, some label⟩
  | .ok _ => ⟨.json ⟨text, score⟩, called, some score, some label⟩

/-- `logMood` (moodController.js lines 5-49).  `bodyScore`/`bodyLabel` are
the caller-supplied `sentiment_score`/`sentiment_label`; a falsy score
(absent or `0`) triggers re-analysis via `analyzeSentiment`, whose thrown
error lands in the catch (HTTP 500); the database insert outcome is the
`dbInsert` oracle. -/
def logMood (bodyScore : Option ℚ) (bodyLabel : Option String) (text : String)
    (env : ClassifierEnv) (cache : Cache SResult) (now : ℕ)
    (dbInsert : Except String Unit) : LogMoodResult :=
  if jsFalsyQ bodyScore then
    match (analyzeSentiment env cache text now).1 with
    | .failure msg => ⟨.jsonError 500 msg, true, none, none⟩
    | .cached r =>
        logMoodInsert (jsOrQ r.sentiment_score (jsOrQ r.score 0))
          (jsOrStr r.primary_emotion (jsOrStr r.label "neutral")) text true dbInsert
    | .fresh r =>
        logMoodInsert (jsOrQ r.sentiment_score (jsOrQ r.score 0))
          (jsOrStr r.primary_emotion (jsOrStr r.label "neutral")) text true dbInsert
  else
    logMoodInsert (bodyScore.getD 0) (jsOrStr bodyLabel "") text false dbInsert

/-- The raw sentiment value `analyzeMoodSentiment` distinguishes by
`typeof`: an object (with or without a `sentiment_score` field) or a plain
number. -/
inductive SentimentValue
  | obj (r : SResult)
  | num (x : ℚ)
deriving DecidableEq

/-- Lines 88-112 of moodController.js: the object branch requires
`sentiment_score !== undefined`; otherwise the value is used if it is a
number and `0` is substituted if not. -/
def rawSentimentScore (v : SentimentValue) : ℚ :=
  match v with
  | .obj r =>
      match r.sentiment_score with
      | some q => q
      | none => 0
  | .num x => x

/-- `const normalizedScore = Math.max(-1, Math.min(1, sentimentScore));`
(moodController.js line 115) applied to the raw score. -/
def analyzeMoodResponseScore (v : SentimentValue) : ℚ :=
  max (-1) (min 1 (rawSentimentScore v))

/-! ## Mood mapper (spec-modelled)

The sentiment-to-audio-feature mapping and the diversity pass live in
`server/python/mood_service.py` / `moodBasedRecs.py`, which are not under
src/; only their documentation is (PERFORMANCE_OPTIMIZATION "Smart Sentiment
Mapping" and INTERVIEW_RESPONSES "Mood-Music Mapping Algorithm" /
"Diversity Algorithm").  The definitions in this section are therefore
modelled from the spec (§4.2, §4.5, §8) and those documented fragments. -/

/-- The fixed enumerated emotion set (spec §3). -/
def recognizedEmotions : List String :=
  ["joy", "love", "excitement", "optimism", "sadness", "fear", "anger", "neutral"]

structure MoodSignal where
  sentimentScore : ℚ
  primaryEmotion : String
  confidence : ℚ
  intensity : ℚ
deriving DecidableEq

/-- Modelled from the spec: §4.2's lookup table from `primaryEmotion` to a
base target valence (joy→0.8, sadness→0.2, …); an unrecognized emotion is
treated as neutral. -/
def emotionBaseValence (e : String) : ℚ :=
  if e = "joy" then 4/5
  else if e = "love" then 3/4
  else if e = "excitement" then 4/5
  else if e = "optimism" then 7/10
  else if e = "sadness" then 1/5
  else if e = "fear" then 3/10
  else if e = "anger" then 3/10
  else 1/2

/-- Modelled from the spec: the banded interpolation of §4.2 with the five
contiguous sentiment bands documented in PERFORMANCE_OPTIMIZATION lines
75-83 (`sentiment ≥ 0.6 → valence 0.8`, `≥ 0.2 → 0.65`, and the remaining
granular bands down to 0.2), giving the band's valence level. -/
def bandValence (s : ℚ) : ℚ :=
  if 3/5 ≤ s then 4/5
  else if 1/5 ≤ s then 13/20
  else if -(1/5) ≤ s then 1/2
  else if -(3/5) ≤ s then 7/20
  else 1/5

def clamp01 (x : ℚ) : ℚ := max 0 (min 1 x)

/-- Modelled from the spec: `mapToTarget`'s target valence (§4.2) — the
emotion's base valence shifted by the sentiment band's offset from the
neutral midpoint, with `intensity` linearly scaling the magnitude of the
shift, clamped into [0,1]. -/
def targetValence (sig : MoodSignal) : ℚ :=
  clamp01 (emotionBaseValence sig.primaryEmotion
    + sig.intensity * (bandValence sig.sentimentScore - 1/2))

/-! ## Diversity pass and sequencer (spec-modelled) -/

structure ScoredCandidate where
  track : Track
  finalScore : ℚ
deriving DecidableEq

/-- The per-artist cap: "Artist Diversity: Maximum 2 songs per artist in
playlist" (INTERVIEW_RESPONSES line 1546). -/
def ARTIST_CAP : ℕ := 2

/-- How many tracks by `a` a list contains. -/
def artistCount (l : List Track) (a : String) : ℕ :=
  List.countP (fun t => t.artist_name == a) l

/-- Modelled from the spec: §4.5's greedy diversity pass — walk the ranked
list, admit a candidate only while the output is short of `desiredCount` and
its artist is below the per-artist cap, skip and continue otherwise.
`acc` holds the admitted tracks in reverse order. -/
def diversityPass : List ScoredCandidate → ℕ → List Track → List Track
  | [], _, acc => acc.reverse
  | c :: rest, desiredCount, acc =>
      if desiredCount ≤ acc.length then acc.reverse
      else if artistCount acc c.track.artist_name < ARTIST_CAP then
        diversityPass rest desiredCount (c.track :: acc)
      else
        diversityPass rest desiredCount acc

/-- Modelled from the spec: `selectAndOrder` (§4.5) — the greedy diversity
pass followed by the mood-progression ordering, a sort of the admitted set
along the valence/energy axis; `progressionKey` gives each track's distance
from the current mood toward the target. -/
def selectAndOrder (ranked : List ScoredCandidate) (desiredCount : ℕ)
    (progressionKey : Track → ℚ) : List Track :=
  (diversityPass ranked desiredCount []).mergeSort
    (fun a b => progressionKey a ≤ progressionKey b)

/-! ## Theorems -/

/-- C3: for every key `k` and value `v`, `put(k, v)` followed immediately by
`get(k)` returns `v`; once the fixed TTL (1 hour) has elapsed since
insertion, `get(k)` misses; and the cache never returns an entry whose TTL
has elapsed (any hit's entry is strictly younger than the TTL). -/
theorem cache_put_get_ttl {α : Type} (c : Cache α) (k : String) (v : α) (t : ℕ) :
    cacheGet (cacheSet c k v t) k t = some v
    ∧ (∀ t', t + stdTTL_ms ≤ t' → cacheGet (cacheSet c k v t) k t' = none)
    ∧ (∀ (c' : Cache α) (k' : String) (now : ℕ) (v' : α),
        cacheGet c' k' now = some v' →
        ∃ e : CacheEntry α, entryOf c' k' = some e ∧ e.value = v' ∧
          now < e.insertedAt + stdTTL_ms) := by
  refine ⟨?_, ?_, fun c' k' now v' h => cacheGet_some_fresh c' k' now v' h⟩
  · rw [cacheGet_cacheSet_self]
    have ht : t < t + stdTTL_ms := by simp [stdTTL_ms]
    simp [ht]
  · intro t' h
    rw [cacheGet_cacheSet_self]
    have ht : ¬ t' < t + stdTTL_ms := by omega
    simp [ht]

theorem cache_put_get_ttl_witness :
    cacheGet (cacheSet ([] : Cache ℕ) "k" 7 0) "k" 0 = some 7
    ∧ cacheGet (cacheSet ([] : Cache ℕ) "k" 7 0) "k" 3600000 = none
    ∧ ∃ e : CacheEntry ℕ, entryOf [("k", ⟨5, 0⟩)] "k" = some e ∧ e.value = 5 ∧
        10 < e.insertedAt + stdTTL_ms := by
  obtain ⟨h1, h2, h3⟩ := cache_put_get_ttl ([] : Cache ℕ) "k" 7 0
  exact ⟨h1, h2 3600000 (by norm_num [stdTTL_ms]),
    h3 [("k", ⟨5, 0⟩)] "k" 10 5 (by decide)⟩

/-- C6: whatever the classifier returned, the sentiment score sent back by
`analyzeMoodSentiment` is the raw score clamped into [-1, 1]
(moodController.js line 115), so it always lies in that interval. -/
theorem sentiment_score_clamped (v : SentimentValue) :
    -1 ≤ analyzeMoodResponseScore v ∧ analyzeMoodResponseScore v ≤ 1 := by
  unfold analyzeMoodResponseScore
  exact ⟨le_max_left _ _, max_le (by norm_num) (min_le_left _ _)⟩

lemma bandValence_mono {a b : ℚ} (h : a ≤ b) : bandValence a ≤ bandValence b := by
  unfold bandValence
  split_ifs <;> linarith

lemma clamp01_mono {a b : ℚ} (h : a ≤ b) : clamp01 a ≤ clamp01 b := by
  unfold clamp01
  exact max_le_max le_rfl (min_le_min le_rfl h)

/-- C4: for two MoodSignals agreeing on emotion and intensity (with the
valid nonnegative intensity of spec §3), a larger sentiment score never
yields a smaller target valence. -/
theorem targetValence_monotone (s1 s2 : MoodSignal)
    (hem : s2.primaryEmotion = s1.primaryEmotion)
    (hint : s2.intensity = s1.intensity)
    (hnn : 0 ≤ s2.intensity)
    (hle : s2.sentimentScore ≤ s1.sentimentScore) :
    targetValence s2 ≤ targetValence s1 := by
  unfold targetValence
  have h2 : s2.intensity * (bandValence s2.sentimentScore - 1/2)
      ≤ s1.intensity * (bandValence s1.sentimentScore - 1/2) := by
    rw [← hint]
    exact mul_le_mul_of_nonneg_left (by linarith [bandValence_mono hle]) hnn
  exact clamp01_mono (by rw [hem]; linarith)

theorem targetValence_monotone_witness :
    targetValence ⟨-(4/5), "joy", 9/10, 7/10⟩ ≤ targetValence ⟨4/5, "joy", 9/10, 7/10⟩ :=
  targetValence_monotone ⟨4/5, "joy", 9/10, 7/10⟩ ⟨-(4/5), "joy", 9/10, 7/10⟩
    rfl rfl (by norm_num) (by norm_num)

lemma diversityPass_artistCount (cs : List ScoredCandidate) (n : ℕ)
    (acc : List Track) (a : String) (h : artistCount acc a ≤ ARTIST_CAP) :
    artistCount (diversityPass cs n acc) a ≤ ARTIST_CAP := by
  induction cs generalizing acc with
  | nil =>
      unfold diversityPass artistCount
      rw [List.countP_reverse]
      exact h
  | cons c rest ih =>
      unfold diversityPass
      split_ifs with h1 h2
      · unfold artistCount
        rw [List.countP_reverse]
        exact h
      · apply ih
        unfold artistCount at h2 h ⊢
        rw [List.countP_cons]
        cases hb : c.track.artist_name == a with
        | true =>
            have ha' : c.track.artist_name = a := by simpa using hb
            rw [ha'] at h2
            simp only [hb, if_pos]
            unfold ARTIST_CAP at h2 ⊢
            omega
        | false =>
            simp [hb]
            exact h
      · exact ih acc h

/-- C5: in the track sequence output by `selectAndOrder`, no single artist
occurs more than the per-artist cap (the implemented cap is 2): the greedy
diversity pass only admits a track while its artist is below the cap, and
the mood-progression ordering merely permutes the admitted set. -/
theorem selectAndOrder_artist_cap (ranked : List ScoredCandidate)
    (desiredCount : ℕ) (progressionKey : Track → ℚ) (a : String) :
    artistCount (selectAndOrder ranked desiredCount progressionKey) a ≤ ARTIST_CAP := by
  unfold selectAndOrder artistCount
  rw [List.Perm.countP_eq _ (List.mergeSort_perm _ _)]
  exact diversityPass_artistCount ranked desiredCount [] a
    (by simp [artistCount])

/-- C2: a playlist whose candidate set came back empty (`recommendations`
present but `[]`) is an array, hence truthy in the controller's validation,
so `generatePlaylist` answers it as a normal `res.json` success carrying the
empty recommendation list — no exception, no error status. -/
theorem empty_candidates_not_error (pl : Playlist) (db : Except String ℕ)
    (h : pl.recommendations = some (.tracks [])) :
    generatePlaylist (.ok (some pl)) db = .json pl
    ∧ (songDataOf pl).recommendations = .tracks [] := by
  constructor
  · have hcond : ¬ (pl.recommendations = none ∧ pl.tracks = none) := by simp [h]
    cases db <;> simp [generatePlaylist, hcond]
  · simp [songDataOf, h]

theorem empty_candidates_not_error_witness :
    generatePlaylist (.ok (some { recommendations := some (.tracks []) })) (.ok 1)
      = .json { recommendations := some (.tracks []) }
    ∧ (songDataOf { recommendations := some (.tracks []) }).recommendations
      = .tracks [] :=
  empty_candidates_not_error { recommendations := some (.tracks []) } (.ok 1) rfl

/-- C9: for a valid generated playlist, the controller's response does not
depend on the database insert outcome — a persistence error is only logged
and the full playlist is still answered as a success. -/
theorem persistence_error_swallowed (pl : Playlist) (db1 db2 : Except String ℕ)
    (h : ¬ (pl.recommendations = none ∧ pl.tracks = none)) :
    generatePlaylist (.ok (some pl)) db1 = .json pl
    ∧ generatePlaylist (.ok (some pl)) db1 = generatePlaylist (.ok (some pl)) db2 := by
  cases db1 <;> cases db2 <;> simp [generatePlaylist, h]

theorem persistence_error_swallowed_witness :
    generatePlaylist (.ok (some { tracks := some (.tracks [⟨"s", "a"⟩]) }))
        (.error "db down")
      = .json { tracks := some (.tracks [⟨"s", "a"⟩]) }
    ∧ generatePlaylist (.ok (some { tracks := some (.tracks [⟨"s", "a"⟩]) }))
        (.error "db down")
      = generatePlaylist (.ok (some { tracks := some (.tracks [⟨"s", "a"⟩]) })) (.ok 3) :=
  persistence_error_swallowed { tracks := some (.tracks [⟨"s", "a"⟩]) }
    (.error "db down") (.ok 3) (by simp)

/-- A playlist object whose `primary_emotion` is a present but unrecognized
string. -/
def bananaPlaylist : Playlist :=
  { recommendations := some (.tracks [⟨"s", "a"⟩]), primary_emotion := some "banana" }

/-- C8 counterexample: a present but unrecognized `primary_emotion`
("banana") is stored unchanged by `generatePlaylist`'s `songData` — it is
not replaced by "neutral" — and the request still succeeds, refuting the
claim that every unrecognized emotion is treated as neutral. -/
theorem unrecognized_emotion_counterexample :
    (songDataOf bananaPlaylist).primary_emotion = "banana"
    ∧ (songDataOf bananaPlaylist).primary_emotion ≠ "neutral"
    ∧ "banana" ∉ recognizedEmotions
    ∧ generatePlaylist (.ok (some bananaPlaylist)) (.ok 1) = .json bananaPlaylist := by
  refine ⟨rfl, by decide, by decide, ?_⟩
  simp [generatePlaylist, bananaPlaylist]

/-- C8 amended: only an absent (or empty-string) emotion is defaulted to
"neutral" — by the `|| 'neutral'` chains in `generatePlaylist`'s `songData`
and in `logMood`'s label — while any present non-empty emotion string,
recognized or not, is passed through unchanged; in either case the request
continues without failing (and no warning is logged). -/
theorem emotion_defaulting_amended (pl : Playlist) (db : Except String ℕ)
    (env : ClassifierEnv) (cache : Cache SResult) (text : String) (now : ℕ)
    (db' : Except String Unit) (resp : ServiceResponse) :
    (pl.primary_emotion = none → pl.mood_analysis = none →
      (songDataOf pl).primary_emotion = "neutral")
    ∧ (pl.primary_emotion = some "" → pl.mood_analysis = none →
      (songDataOf pl).primary_emotion = "neutral")
    ∧ (∀ e : String, pl.primary_emotion = some e → e ≠ "" →
      (songDataOf pl).primary_emotion = e)
    ∧ (¬ (pl.recommendations = none ∧ pl.tracks = none) →
      generatePlaylist (.ok (some pl)) db = .json pl)
    ∧ (env.healthy = true → env.analyze = some resp →
      cacheGet cache (cacheKey text) now = none →
      resp.primary_emotion = none →
      (logMood none none text env cache now db').finalLabel = some "neutral") := by
  refine ⟨?_, ?_, ?_, ?_, ?_⟩
  · intro h1 h2
    simp [songDataOf, h1, h2, jsOrStr]
  · intro h1 h2
    simp [songDataOf, h1, h2, jsOrStr]
  · intro e h1 h2
    simp [songDataOf, h1, h2, jsOrStr]
  · intro h
    cases db <;> simp [generatePlaylist, h]
  · intro hh ha hc he
    cases db' <;>
      simp [logMood, jsFalsyQ, analyzeSentiment, hc, hh, ha, logMoodInsert,
        withServiceFlags, toSResult, he, jsOrStr]

/-- A playlist with no emotion field at all. -/
def plainPlaylist : Playlist := { recommendations := some (.tracks [⟨"s", "a"⟩]) }

/-- A playlist with a recognized emotion. -/
def joyPlaylist : Playlist :=
  { recommendations := some (.tracks [⟨"s", "a"⟩]), primary_emotion := some "joy" }

theorem emotion_defaulting_amended_witness :
    (songDataOf plainPlaylist).primary_emotion = "neutral"
    ∧ (songDataOf joyPlaylist).primary_emotion = "joy"
    ∧ generatePlaylist (.ok (some plainPlaylist)) (.ok 1) = .json plainPlaylist
    ∧ (logMood none none "hi" ⟨true, some ⟨some 1, none, none, none, none⟩⟩ [] 0
        (.ok ())).finalLabel = some "neutral" := by
  refine ⟨?_, ?_, ?_, ?_⟩
  · exact (emotion_defaulting_amended plainPlaylist
      (.ok 1) ⟨true, none⟩ [] "x" 0 (.ok ()) ⟨none, none, none, none, none⟩).1 rfl rfl
  · exact (emotion_defaulting_amended joyPlaylist
      (.ok 1) ⟨true, none⟩ [] "x" 0 (.ok ()) ⟨none, none, none, none, none⟩).2.2.1 "joy"
      rfl (by decide)
  · exact (emotion_defaulting_amended plainPlaylist
      (.ok 1) ⟨true, none⟩ [] "x" 0 (.ok ()) ⟨none, none, none, none, none⟩).2.2.2.1
      (by simp [plainPlaylist])
  · exact (emotion_defaulting_amended plainPlaylist
      (.ok 1) ⟨true, some ⟨some 1, none, none, none, none⟩⟩ [] "hi" 0 (.ok ())
      ⟨some 1, none, none, none, none⟩).2.2.2.2 rfl rfl rfl rfl

/-- C10: in `logMood`, a caller-supplied sentiment score of exactly 0 is
falsy and hence treated exactly like an absent score — the text is
re-analyzed and the supplied value discarded — while any nonzero supplied
score is stored as-is and the classifier is never invoked. -/
theorem zero_score_reanalyzed (bodyLabel : Option String) (text : String)
    (env : ClassifierEnv) (cache : Cache SResult) (now : ℕ)
    (db : Except String Unit) (q : ℚ) (hq : q ≠ 0) :
    logMood (some 0) bodyLabel text env cache now db
      = logMood none bodyLabel text env cache now db
    ∧ (logMood (some 0) bodyLabel text env cache now db).classifierCalled = true
    ∧ (logMood (some q) bodyLabel text env cache now db).classifierCalled = false
    ∧ (logMood (some q) bodyLabel text env cache now db).storedScore = some q := by
  refine ⟨by simp [logMood, jsFalsyQ], ?_, ?_, ?_⟩
  · rcases h : (analyzeSentiment env cache text now).1 <;> cases db <;>
      simp [logMood, jsFalsyQ, h, logMoodInsert]
  · cases db <;> simp [logMood, jsFalsyQ, hq, logMoodInsert]
  · cases db <;> simp [logMood, jsFalsyQ, hq, logMoodInsert]

theorem zero_score_reanalyzed_witness :
    logMood (some 0) none "hi" ⟨true, none⟩ [] 0 (.ok ())
      = logMood none none "hi" ⟨true, none⟩ [] 0 (.ok ())
    ∧ (logMood (some 0) none "hi" ⟨true, none⟩ [] 0 (.ok ())).classifierCalled = true
    ∧ (logMood (some (1/2)) none "hi" ⟨true, none⟩ [] 0 (.ok ())).classifierCalled = false
    ∧ (logMood (some (1/2)) none "hi" ⟨true, none⟩ [] 0 (.ok ())).storedScore
      = some (1/2) :=
  zero_score_reanalyzed none "hi" ⟨true, none⟩ [] 0 (.ok ()) (1/2) (by norm_num)

/-- C7: two mood texts that agree after lowercasing and trimming produce the
same cache key (and only such texts do — the key determines the normalized
text), and a successful fresh analysis of one is answered as a cache hit for
the other within the TTL; this is exact-match caching on the normalized
string. -/
theorem cache_key_exact_match :
    (∀ t1 t2 : String, cacheKey t1 = cacheKey t2 ↔ normalizeMood t1 = normalizeMood t2)
    ∧ (∀ (env env' : ClassifierEnv) (cache c' : Cache SResult) (t1 t2 : String)
        (now now' : ℕ) (out : SResult),
        normalizeMood t1 = normalizeMood t2 →
        analyzeSentiment env cache t1 now = (.fresh out, c') →
        now' < now + stdTTL_ms →
        (analyzeSentiment env' c' t2 now').1 = .cached out) := by
  constructor
  · intro t1 t2
    exact ⟨cacheKey_inj, fun h => by unfold cacheKey; rw [h]⟩
  · intro env env' cache c' t1 t2 now now' out hnorm hrun hlt
    have hkey : cacheKey t2 = cacheKey t1 := by unfold cacheKey; rw [hnorm]
    unfold analyzeSentiment at hrun
    cases hc : cacheGet cache (cacheKey t1) now with
    | some r => rw [hc] at hrun; simp at hrun
    | none =>
        rw [hc] at hrun
        by_cases hh : env.healthy
        · simp only [hh, if_true] at hrun
          cases ha : env.analyze with
          | some resp =>
              rw [ha] at hrun
              simp only [Prod.mk.injEq, AnalyzeOutcome.fresh.injEq] at hrun
              obtain ⟨hout, hc'⟩ := hrun
              unfold analyzeSentiment
              rw [hkey, ← hc', hout, cacheGet_cacheSet_self, if_pos hlt]
          | none => rw [ha] at hrun; simp at hrun
        · simp only [hh, if_false] at hrun
          simp at hrun

theorem cache_key_exact_match_witness :
    (cacheKey " Happy " = cacheKey "happy" ↔
      normalizeMood " Happy " = normalizeMood "happy")
    ∧ (analyzeSentiment ⟨true, none⟩
        (cacheSet [] (cacheKey " Happy ")
          (withServiceFlags (toSResult ⟨some (3/10), some (9/10), some "joy", none, none⟩))
          0)
        "happy" 5).1
      = .cached (withServiceFlags
          (toSResult ⟨some (3/10), some (9/10), some "joy", none, none⟩)) := by
  refine ⟨cache_key_exact_match.1 " Happy " "happy", ?_⟩
  exact cache_key_exact_match.2
    ⟨true, some ⟨some (3/10), some (9/10), some "joy", none, none⟩⟩ ⟨true, none⟩
    [] _ " Happy " "happy" 0 5 _ (by decide) rfl (by norm_num [stdTTL_ms])

/-- The playlist produced by the original fallback Python script in the C1
counterexample. -/
def fallbackPlaylist : Playlist := { recommendations := some (.tracks [⟨"s", "a"⟩]) }

/-- C1 counterexample: with the classifier (ultra-advanced mood service)
call failing but the original fallback Python script succeeding,
`runPythonScript` returns that fallback's recommendations as a success —
the pipeline neither fails the request with a typed error nor refrains from
computing recommendations, refuting the claim. -/
theorem classifier_failure_counterexample :
    ¬ (∀ env : RecEnv, env.moodService = none →
        ∃ msg, runPythonScript env = Except.error msg) := by
  intro h
  obtain ⟨msg, hmsg⟩ := h ⟨none, none, some fallbackPlaylist⟩ rfl
  simp [runPythonScript] at hmsg

/-- C1 amended: in `analyzeSentiment`, a classifier failure (unhealthy
service or failed `/analyze` call) does fail the request with a thrown
error and no default mood, leaving the cache unchanged; but in the
recommendation pipeline, `runPythonScript` reacts to a classifier failure
by silently falling back to the original Python script — without any caller
opt-in — and fails the request only when that fallback also fails. -/
theorem classifier_failure_amended :
    (∀ (env : ClassifierEnv) (cache : Cache SResult) (text : String) (now : ℕ),
        cacheGet cache (cacheKey text) now = none →
        env.healthy = false ∨ env.analyze = none →
        ∃ msg, analyzeSentiment env cache text now = (.failure msg, cache))
    ∧ (∀ env : RecEnv, env.moodService = none → env.originalScript = none →
        runPythonScript env = .error "Python script failed")
    ∧ (∀ (env : RecEnv) (raw : Playlist), env.moodService = none →
        env.originalScript = some raw → runPythonScript env = .ok raw) := by
  refine ⟨?_, ?_, ?_⟩
  · intro env cache text now hmiss hor
    unfold analyzeSentiment
    rw [hmiss]
    rcases hor with hh | ha
    · exact ⟨"High-accuracy sentiment analysis service not running on port 5001",
        by simp [hh]⟩
    · cases hh : env.healthy
      · exact ⟨"High-accuracy sentiment analysis service not running on port 5001",
          by simp [hh]⟩
      · exact ⟨"High-accuracy sentiment analysis service unavailable",
          by simp [hh, ha]⟩
  · intro env h1 h2
    unfold runPythonScript
    rw [h1, h2]
  · intro env raw h1 h2
    unfold runPythonScript
    rw [h1, h2]

theorem classifier_failure_amended_witness :
    (∃ msg, analyzeSentiment ⟨false, none⟩ [] "sad" 0 = (.failure msg, []))
    ∧ runPythonScript ⟨none, none, none⟩ = .error "Python script failed"
    ∧ runPythonScript ⟨none, none, some {}⟩ = .ok {} := by
  obtain ⟨h1, h2, h3⟩ := classifier_failure_amended
  exact ⟨h1 ⟨false, none⟩ [] "sad" 0 rfl (Or.inl rfl), h2 ⟨none, none, none⟩ rfl rfl,
    h3 ⟨none, none, some {}⟩ {} rfl rfl⟩

end Sarang
